import Mathlib

set_option maxHeartbeats 1000000

namespace VideoMaker

/-! Shallow embedding of `src/app/main.py` (Klas96/Video-Maker): the job store,
the request model, the background job runner `process_content_generation`, and
the HTTP endpoint handlers.  External generator modules (`app.generators.*`)
are not part of the repository snapshot; they are modelled as an oracle `Env`
following the contracts of section 6 of the spec. -/

/-- Job status strings stored in the `status` field of a job record. -/
inductive JobStatus
  | processing
  | completed
  | failed
  deriving DecidableEq, Repr

/-- The closed enumeration of content types accepted by `ContentRequest`
(`Literal["story", "educational", "podcast", "article", "tweet_thread", "book_chapter"]`). -/
inductive ContentType
  | story
  | educational
  | podcast
  | article
  | tweet_thread
  | book_chapter
  deriving DecidableEq, Repr

/-- String form of a content type, as it appears in the Python literals. -/
def ContentType.toStr : ContentType → String
  | .story => "story"
  | .educational => "educational"
  | .podcast => "podcast"
  | .article => "article"
  | .tweet_thread => "tweet_thread"
  | .book_chapter => "book_chapter"

/-- The podcast sub-type literal of `PodcastGenerationOptions.podcast_type`. -/
inductive PodcastType
  | custom_text
  | topic_based
  | free_generation
  | dialogue
  deriving DecidableEq, Repr

/-- One dialogue turn (`DialogueEntry` pydantic model). -/
structure DialogueEntry where
  speaker : Int
  text : String
  deriving DecidableEq, Repr

/-- The `PodcastGenerationOptions` pydantic model. -/
structure PodcastGenerationOptions where
  podcast_type : PodcastType
  custom_text : Option String := none
  topic : Option String := none
  dialogues : Option (List DialogueEntry) := none
  voice1 : Option String := some "rachel"
  voice2 : Option String := some "josh"
  num_exchanges : Int := 6
  deriving DecidableEq, Repr

/-- The `ArticleOptions` pydantic model. -/
structure ArticleOptions where
  custom_instructions : Option String := none
  deriving DecidableEq, Repr

/-- The `TweetOptions` pydantic model. -/
structure TweetOptions where
  num_tweets : Int := 3
  call_to_action : Option String := none
  deriving DecidableEq, Repr

/-- The `BookChapterOptions` pydantic model. -/
structure BookChapterOptions where
  plot_summary : Option String := none
  chapter_topic : Option String := none
  previous_chapter_summary : Option String := none
  characters : Option (List String) := none
  genre : Option String := none
  deriving DecidableEq, Repr

/-- The `ContentRequest` pydantic model. -/
structure ContentRequest where
  content_type : ContentType
  topic : String
  video_prompt : Option String := none
  educational_style : Option String := none
  difficulty_level : Option String := none
  podcast_options : Option PodcastGenerationOptions := none
  voice_name : Option String := none
  article_options : Option ArticleOptions := none
  tweet_options : Option TweetOptions := none
  book_chapter_options : Option BookChapterOptions := none
  desired_length_words : Int := 0
  style_tone : Option String := none
  deriving DecidableEq, Repr

/-- One entry of the `active_jobs` dictionary.  Fields that the Python code adds
to the dict later in the job's life are `Option`s that start out `none`. -/
structure JobRecord where
  status : JobStatus
  created_at : String
  output_dir : String
  content_type : ContentType
  video_prompt : Option String := none
  output_filename : Option String := none
  media_type : Option String := none
  completed_at : Option String := none
  failed_at : Option String := none
  error : Option String := none
  audio_url : Option String := none
  deriving DecidableEq, Repr

/-- The `active_jobs` dictionary, as an association list (most recent first). -/
abbrev Store : Type := List (String × JobRecord)

/-- Dictionary lookup `active_jobs[job_id]` / `job_id in active_jobs`. -/
def lookupJob : Store → String → Option JobRecord
  | [], _ => none
  | (k, r) :: rest, job_id => if k = job_id then some r else lookupJob rest job_id

/-- Python truthiness of an optional string: `None` and `""` are falsy. -/
def optStrFalsy : Option String → Bool
  | none => true
  | some s => s = ""

/-- Python truthiness of an optional list: `None` and `[]` are falsy. -/
def optListFalsy {α : Type} : Option (List α) → Bool
  | none => true
  | some l => l.isEmpty

/-- `os.path.join` for the two-argument uses in the source. -/
def joinPath (dir file : String) : String := dir ++ "/" ++ file

/-- Python `str.startswith`, by structural recursion on the character lists
(semantically `String.startsWith`, but kernel-reducible). -/
def pyStartsWith (s pre : String) : Bool := pre.toList.isPrefixOf s.toList

/-- Modelled from the spec: the external artifact generators of
`app.generators.*` are not included in the repository snapshot.  Per section 6
of the spec each one is an asynchronous black box that either returns a value
or raises an error carrying a message (modelled as `Except String α`), and the
file-writing generators (voice, dialogue, music, video) write their declared
output file when they succeed.  An `Env` fixes one behaviour per generator for
a run, plus the wall-clock strings returned by `datetime.now().isoformat()` at
the completion and failure sites. -/
structure Env where
  generate_story : Except String String
  generate_educational_content : Except String String
  generate_dialogue_content : Except String (List (Int × String))
  generate_dialogue : Except String Unit
  generate_podcast_from_topic : Except String String
  generate_free_podcast : Except String String
  generate_voice_over : Except String Unit
  generate_article : Except String String
  generate_tweet_thread : Except String (List String)
  generate_book_chapter : Except String String
  generate_images : Except String (List String)
  generate_background_music : Except String Unit
  create_video_async : Except String Unit
  now_completed : String
  now_failed : String
  deriving Repr

/-- State threaded through one run of the job runner: the job's record in
`active_jobs`, the filesystem (the set of existing paths), and the trace of
record snapshots taken after every write to the store (earliest first). -/
structure RunState where
  record : JobRecord
  fs : List String
  trace : List JobRecord
  deriving Repr

/-- One write to this job's entry of `active_jobs`; the snapshot after the
write is appended to the trace. -/
def writeJob (st : RunState) (f : JobRecord → JobRecord) : RunState :=
  let r := f st.record
  { st with record := r, trace := st.trace ++ [r] }

/-- A file coming into existence at path `p`. -/
def writeFile (st : RunState) (p : String) : RunState :=
  { st with fs := p :: st.fs }

/-- The `story`/`educational` arm of the runner's dispatch (lines 341-355):
generate the script and persist it as `content.txt`; media generation follows
later in `runBody`. -/
def runStoryBranch (req : ContentRequest) (env : Env) (output_dir : String)
    (st : RunState) : RunState × Option String :=
  match (if req.content_type = .story then env.generate_story
         else env.generate_educational_content) with
  | .error e => (st, some e)
  | .ok _content =>
      (writeFile st (joinPath output_dir "content.txt"), none)

/-- The `podcast` arm of the runner's dispatch (lines 357-416). -/
def runPodcastBranch (req : ContentRequest) (env : Env) (output_dir : String)
    (st : RunState) : RunState × Option String :=
  match req.podcast_options with
  | none => (st, some "Podcast options not provided for podcast content type.")
  | some opts =>
    if opts.podcast_type = .dialogue then
      let afterDialogue : RunState → RunState × Option String := fun st =>
        match env.generate_dialogue with
        | .error e => (st, some e)
        | .ok _ =>
          let st := writeFile st (joinPath output_dir "podcast_audio.mp3")
          let st := writeJob st (fun r =>
            { r with status := .completed,
                     output_filename := some "podcast_audio.mp3",
                     media_type := some "audio/mpeg" })
          (st, none)
      if optListFalsy opts.dialogues then
        if req.topic = "" then
          (st, some "Topic is required for automatic dialogue generation")
        else
          match env.generate_dialogue_content with
          | .error e => (st, some e)
          | .ok _dialogue_list => afterDialogue st
      else
        afterDialogue st
    else
      let textRes : Except String (Option String) :=
        match opts.podcast_type with
        | .custom_text => .ok opts.custom_text
        | .topic_based => env.generate_podcast_from_topic.map some
        | _ => env.generate_free_podcast.map some
      match textRes with
      | .error e => (st, some e)
      | .ok _text =>
        match env.generate_voice_over with
        | .error e => (st, some e)
        | .ok _ =>
          let st := writeFile st (joinPath output_dir "podcast_audio.mp3")
          let st := writeJob st (fun r =>
            { r with status := .completed,
                     output_filename := some "podcast_audio.mp3",
                     media_type := some "audio/mpeg" })
          (st, none)

/-- The `article` arm of the runner's dispatch (lines 418-438). -/
def runArticleBranch (env : Env) (output_dir : String)
    (st : RunState) : RunState × Option String :=
  match env.generate_article with
  | .error e => (st, some e)
  | .ok generated_text =>
    if pyStartsWith generated_text "Error:" then
      (st, some ("Article generation failed: " ++ generated_text))
    else
      let st := writeFile st (joinPath output_dir "article.txt")
      let st := writeJob st (fun r => { r with output_filename := some "article.txt" })
      let st := writeJob st (fun r => { r with media_type := some "text/plain" })
      (st, none)

/-- The `tweet_thread` arm of the runner's dispatch (lines 440-460). -/
def runTweetBranch (env : Env) (output_dir : String)
    (st : RunState) : RunState × Option String :=
  match env.generate_tweet_thread with
  | .error e => (st, some e)
  | .ok tweet_list =>
    let finish : RunState → RunState × Option String := fun st =>
      let st := writeFile st (joinPath output_dir "tweet_thread.json")
      let st := writeJob st (fun r => { r with output_filename := some "tweet_thread.json" })
      let st := writeJob st (fun r => { r with media_type := some "application/json" })
      (st, none)
    match tweet_list with
    | first :: _ =>
      if pyStartsWith first "Error:" then
        (st, some ("Tweet thread generation failed: " ++ first))
      else
        finish st
    | [] => finish st

/-- The `book_chapter` arm of the runner's dispatch (lines 462-485). -/
def runBookBranch (env : Env) (output_dir : String)
    (st : RunState) : RunState × Option String :=
  match env.generate_book_chapter with
  | .error e => (st, some e)
  | .ok generated_text =>
    if pyStartsWith generated_text "Error:" then
      (st, some ("Book chapter generation failed: " ++ generated_text))
    else
      let st := writeFile st (joinPath output_dir "book_chapter.txt")
      let st := writeJob st (fun r => { r with output_filename := some "book_chapter.txt" })
      let st := writeJob st (fun r => { r with media_type := some "text/plain" })
      (st, none)

/-- The media-generation block for video-producing types (lines 491-521):
images, voice-over, background music, then the muxed `content_video.mp4`. -/
def runMediaGeneration (env : Env) (output_dir : String)
    (st : RunState) : RunState × Option String :=
  match env.generate_images with
  | .error e => (st, some e)
  | .ok image_paths =>
    let st := { st with fs := image_paths ++ st.fs }
    match env.generate_voice_over with
    | .error e => (st, some e)
    | .ok _ =>
      let st := writeFile st (joinPath output_dir "voice_over.mp3")
      match env.generate_background_music with
      | .error e => (st, some e)
      | .ok _ =>
        let st := writeFile st (joinPath output_dir "background_music.wav")
        match env.create_video_async with
        | .error e => (st, some e)
        | .ok _ =>
          let st := writeFile st (joinPath output_dir "content_video.mp4")
          let st := writeJob st (fun r => { r with output_filename := some "content_video.mp4" })
          let st := writeJob st (fun r => { r with media_type := some "video/mp4" })
          (st, none)

/-- The body of the `try:` block of `process_content_generation` (lines
336-524).  Returns the threaded state together with `some message` when the
Python code would raise (`ValueError`/`HTTPException`/generator fault), `none`
when the body runs to the end.  In the source, `text_content_only` is set for
podcast/article/tweet_thread/book_chapter, so the guard of line 491 is
equivalent to the content type being story or educational. -/
def runBody (req : ContentRequest) (env : Env) (output_dir : String)
    (st : RunState) : RunState × Option String :=
  let branch :=
    match req.content_type with
    | .story => runStoryBranch req env output_dir st
    | .educational => runStoryBranch req env output_dir st
    | .podcast => runPodcastBranch req env output_dir st
    | .article => runArticleBranch env output_dir st
    | .tweet_thread => runTweetBranch env output_dir st
    | .book_chapter => runBookBranch env output_dir st
  match branch with
  | (st, some e) => (st, some e)
  | (st, none) =>
    let afterMedia :=
      if req.content_type = .story ∨ req.content_type = .educational then
        runMediaGeneration env output_dir st
      else (st, none)
    match afterMedia with
    | (st, some e) => (st, some e)
    | (st, none) =>
      let st := writeJob st (fun r => { r with status := .completed })
      let st := writeJob st (fun r => { r with completed_at := some env.now_completed })
      (st, none)

/-- The whole job runner (lines 335-529): run the body and, when it raised,
execute the `except Exception` handler, which marks the job failed, stores
`str(e)` and stamps `failed_at`.  The runner itself is a total function: no
error value escapes it. -/
def process_content_generation (req : ContentRequest) (env : Env)
    (output_dir : String) (st : RunState) : RunState :=
  match runBody req env output_dir st with
  | (st, none) => st
  | (st, some e) =>
    let st := writeJob st (fun r => { r with status := .failed })
    let st := writeJob st (fun r => { r with error := some e })
    writeJob st (fun r => { r with failed_at := some env.now_failed })

/-- The job record inserted by `POST /generate` (lines 133-139). -/
def initialJobRecord (req : ContentRequest) (now : String) (output_dir : String) :
    JobRecord :=
  { status := .processing
    created_at := now
    output_dir := output_dir
    content_type := req.content_type
    video_prompt := req.video_prompt }

/-- The JSON body returned by `POST /generate` (lines 149-153). -/
structure GenerateResponse where
  job_id : String
  status : String
  message : String
  deriving DecidableEq, Repr

/-- The background task scheduled by `POST /generate` via
`background_tasks.add_task` (lines 142-147): the runner is handed the job id,
the request and the output directory, and runs detached from the response. -/
structure ScheduledTask where
  job_id : String
  request : ContentRequest
  output_dir : String
  deriving DecidableEq, Repr

/-- `POST /generate` (lines 123-153): allocate the per-job output directory,
insert a processing job record, schedule the runner, return the
acknowledgment.  `job_id` (a fresh UUID in the source) and the clock reading
are parameters; no generator is consulted. -/
def generate_content_endpoint (store : Store) (req : ContentRequest)
    (job_id now OUTPUT_DIR : String) : Store × GenerateResponse × ScheduledTask :=
  let output_dir := joinPath OUTPUT_DIR job_id
  let store : Store := (job_id, initialJobRecord req now output_dir) :: store
  (store,
   { job_id := job_id
     status := "processing"
     message := (ContentType.toStr req.content_type).capitalize ++ " generation started" },
   { job_id := job_id, request := req, output_dir := output_dir })

/-- An HTTP error response (`HTTPException(status_code=..., detail=...)`). -/
structure HErr where
  status_code : Nat
  detail : String
  deriving DecidableEq, Repr

/-- `GET /status/{job_id}` (lines 155-160). -/
def get_job_status (store : Store) (job_id : String) : Except HErr JobRecord :=
  match lookupJob store job_id with
  | none => .error { status_code := 404, detail := "Job not found" }
  | some job => .ok job

/-- Split a filename at its last dot, as `os.path.splitext` does for the plain
names appearing here: `article.txt` gives `(article, .txt)`, a dotless name
gives `(name, empty)`. -/
def splitext (s : String) : String × String :=
  let cs := s.toList
  if cs.contains '.' then
    let extRev := cs.reverse.takeWhile (fun c => c ≠ '.')
    let ext : List Char := '.' :: extRev.reverse
    (String.mk (cs.take (cs.length - ext.length)), String.mk ext)
  else (s, "")

/-- The `FileResponse` returned by `GET /download/{job_id}`. -/
structure DownloadResponse where
  file_path : String
  media_type : String
  filename : String
  deriving DecidableEq, Repr

/-- `GET /download/{job_id}` (lines 162-206).  `fs` is the set of paths that
exist on disk. -/
def download_content (store : Store) (fs : List String) (job_id : String) :
    Except HErr DownloadResponse :=
  match lookupJob store job_id with
  | none => .error { status_code := 404, detail := "Job not found" }
  | some job_info =>
    if job_info.status ≠ .completed then
      .error { status_code := 400, detail := "Content generation not completed" }
    else
      let content_type := job_info.content_type
      let resolved : Except HErr (String × String) :=
        if optStrFalsy job_info.output_filename ∨ optStrFalsy job_info.media_type then
          if content_type = .podcast then .ok ("podcast_audio.mp3", "audio/mpeg")
          else if content_type = .story ∨ content_type = .educational then
            .ok ("content_video.mp4", "video/mp4")
          else .error { status_code := 500, detail := "Job output information is incomplete." }
        else .ok (job_info.output_filename.getD "", job_info.media_type.getD "")
      match resolved with
      | .error e => .error e
      | .ok (output_filename, media_type) =>
        let file_path := joinPath job_info.output_dir output_filename
        if file_path ∈ fs then
          let ext := (splitext output_filename).2
          let file_ext :=
            if ext = "" then
              if media_type = "application/json" then ".json"
              else if media_type = "text/plain" then ".txt"
              else if media_type = "audio/mpeg" then ".mp3"
              else if media_type = "video/mp4" then ".mp4"
              else ""
            else ext
          .ok { file_path := file_path
                media_type := media_type
                filename := ContentType.toStr content_type ++ "_" ++ job_id ++ file_ext }
        else
          .error { status_code := 404, detail := output_filename ++ " not found in job output." }

/-- One element of the `GET /videos` response (`VideoInfo` pydantic model,
restricted to the fields the endpoint fills in). -/
structure VideoInfo where
  job_id : String
  content_type : String
  created_at : String
  video_url : String
  deriving DecidableEq, Repr

/-- The private per-job video artifact path checked by `/videos`, `/stream`
and `/info`. -/
def jobVideoPath (job : JobRecord) : String := joinPath job.output_dir "content_video.mp4"

/-- The public serving path `static/videos/{job_id}.mp4`. -/
def publicVideoPath (job_id : String) : String := "static/videos/" ++ job_id ++ ".mp4"

/-- The optional `content_type` filter of `GET /videos` (line 222). -/
def skipByFilter (ct_filter : Option String) (job : JobRecord) : Bool :=
  match ct_filter with
  | some ct => ContentType.toStr job.content_type ≠ ct
  | none => false

/-- The `for job_id, job_info in active_jobs.items()` loop of `GET /videos`
(lines 218-243), threading the filesystem through the lazy public copies.
ISO-8601 timestamps of one format compare like their strings, so the
`datetime.fromisoformat` comparison against the cutoff is string comparison. -/
def listVideosLoop (ct_filter : Option String) (cutoff : String) :
    Store → List String → List VideoInfo × List String
  | [], fs => ([], fs)
  | (job_id, job_info) :: rest, fs =>
    if job_info.status ≠ .completed then
      listVideosLoop ct_filter cutoff rest fs
    else if skipByFilter ct_filter job_info then
      listVideosLoop ct_filter cutoff rest fs
    else if job_info.created_at < cutoff then
      listVideosLoop ct_filter cutoff rest fs
    else if jobVideoPath job_info ∉ fs then
      listVideosLoop ct_filter cutoff rest fs
    else
      let fs1 := if publicVideoPath job_id ∈ fs then fs else publicVideoPath job_id :: fs
      let res := listVideosLoop ct_filter cutoff rest fs1
      ({ job_id := job_id
         content_type := ContentType.toStr job_info.content_type
         created_at := job_info.created_at
         video_url := "/static/videos/" ++ job_id ++ ".mp4" } :: res.1,
       res.2)

/-- Insertion step of `sorted(videos, key=created_at, reverse=True)`. -/
def insertDesc (v : VideoInfo) : List VideoInfo → List VideoInfo
  | [] => [v]
  | w :: ws => if w.created_at < v.created_at then v :: w :: ws else w :: insertDesc v ws

/-- `sorted(videos, key=created_at, reverse=True)` as an insertion sort. -/
def sortVideosDesc : List VideoInfo → List VideoInfo
  | [] => []
  | v :: vs => insertDesc v (sortVideosDesc vs)

/-- `GET /videos` (lines 208-245): loop over the store, lazily materialize
public copies, then sort newest first and truncate to `limit`. -/
def list_videos (store : Store) (fs : List String) (ct_filter : Option String)
    (cutoff : String) (limit : Nat) : List VideoInfo × List String :=
  let res := listVideosLoop ct_filter cutoff store fs
  ((sortVideosDesc res.1).take limit, res.2)

/-- The `StreamingResponse` of `GET /video/{job_id}/stream`. -/
structure StreamResponse where
  file_path : String
  media_type : String
  content_disposition : String
  deriving DecidableEq, Repr

/-- `GET /video/{job_id}/stream` (lines 247-268). -/
def stream_video (store : Store) (fs : List String) (job_id : String) :
    Except HErr StreamResponse :=
  match lookupJob store job_id with
  | none => .error { status_code := 404, detail := "Video not found" }
  | some job_info =>
    if job_info.status ≠ .completed then
      .error { status_code := 400, detail := "Video generation not completed" }
    else
      let video_path := jobVideoPath job_info
      if video_path ∈ fs then
        .ok { file_path := video_path
              media_type := "video/mp4"
              content_disposition :=
                "attachment; filename=\"" ++ ContentType.toStr job_info.content_type
                  ++ "_" ++ job_id ++ ".mp4\"" }
      else .error { status_code := 404, detail := "Video file not found" }

/-- The HTML document returned by `GET /video/{job_id}/embed` (lines 282-302),
with the title fragment and video URL spliced in as in the f-string. -/
def embedHtml (title_ct : String) (video_url : String) : String :=
  "\n    <!DOCTYPE html>\n    <html>\n    <head>\n        <title>" ++ title_ct
    ++ " Video</title>\n        <style>\n            body \x7b margin: 0; padding: 20px; background: #f0f0f0; \x7d\n"
    ++ "            .video-container \x7b max-width: 800px; margin: 0 auto; \x7d\n"
    ++ "            video \x7b width: 100%; border-radius: 8px; box-shadow: 0 2px 4px rgba(0,0,0,0.1); \x7d\n"
    ++ "        </style>\n    </head>\n    <body>\n        <div class=\"video-container\">\n"
    ++ "            <video controls>\n                <source src=\"" ++ video_url
    ++ "\" type=\"video/mp4\">\n                Your browser does not support the video tag.\n"
    ++ "            </video>\n        </div>\n    </body>\n    </html>\n    "

/-- `GET /video/{job_id}/embed` (lines 270-304).  The handler reads only the
store: it consults no filesystem state. -/
def get_video_embed (store : Store) (job_id : String) : Except HErr String :=
  match lookupJob store job_id with
  | none => .error { status_code := 404, detail := "Video not found" }
  | some job_info =>
    if job_info.status ≠ .completed then
      .error { status_code := 400, detail := "Video generation not completed" }
    else
      let video_url := "/static/videos/" ++ job_id ++ ".mp4"
      .ok (embedHtml (ContentType.toStr job_info.content_type).capitalize video_url)

/-- The JSON body of `GET /video/{job_id}/info` (lines 323-333); the file size
read by `os.path.getsize` is outside the path-set filesystem model and is
omitted. -/
structure VideoInfoResponse where
  job_id : String
  content_type : String
  created_at : String
  completed_at : Option String
  download_url : String
  stream_url : String
  embed_url : String
  static_url : String
  deriving DecidableEq, Repr

/-- `GET /video/{job_id}/info` (lines 306-333). -/
def get_video_info (store : Store) (fs : List String) (job_id : String) :
    Except HErr VideoInfoResponse :=
  match lookupJob store job_id with
  | none => .error { status_code := 404, detail := "Video not found" }
  | some job_info =>
    if job_info.status ≠ .completed then
      .error { status_code := 400, detail := "Video generation not completed" }
    else
      let video_path := jobVideoPath job_info
      if video_path ∈ fs then
        .ok { job_id := job_id
              content_type := ContentType.toStr job_info.content_type
              created_at := job_info.created_at
              completed_at := job_info.completed_at
              download_url := "/download/" ++ job_id
              stream_url := "/video/" ++ job_id ++ "/stream"
              embed_url := "/video/" ++ job_id ++ "/embed"
              static_url := "/static/videos/" ++ job_id ++ ".mp4" }
      else .error { status_code := 404, detail := "Video file not found" }

/-- The JSON body of `GET /podcast/{job_id}/info` (lines 544-551). -/
structure PodcastInfoResponse where
  job_id : String
  content_type : String
  created_at : String
  completed_at : Option String
  audio_url : Option String
  download_url : String
  deriving DecidableEq, Repr

/-- `GET /podcast/{job_id}/info` (lines 531-551).  `audio_url` is read with
`job_info.get("audio_url")`, so an unset field surfaces as `none`. -/
def get_podcast_info (store : Store) (job_id : String) :
    Except HErr PodcastInfoResponse :=
  match lookupJob store job_id with
  | none => .error { status_code := 404, detail := "Job not found" }
  | some job_info =>
    if job_info.content_type ≠ .podcast then
      .error { status_code := 400, detail := "Job is not a podcast type." }
    else if job_info.status ≠ .completed then
      .error { status_code := 400, detail := "Podcast generation not completed." }
    else
      .ok { job_id := job_id
            content_type := ContentType.toStr job_info.content_type
            created_at := job_info.created_at
            completed_at := job_info.completed_at
            audio_url := job_info.audio_url
            download_url := "/download/" ++ job_id }

/-- A complete job life: the record inserted by `POST /generate` followed by
the scheduled run of `process_content_generation`, starting from filesystem
`fs0`.  The trace starts with the freshly inserted record. -/
def fullRun (req : ContentRequest) (env : Env) (job_id now OUTPUT_DIR : String)
    (fs0 : List String) : RunState :=
  let output_dir := joinPath OUTPUT_DIR job_id
  let r0 := initialJobRecord req now output_dir
  process_content_generation req env output_dir { record := r0, fs := fs0, trace := [r0] }

/-- The primary output (filename, declared media type) per content type, as
the spec's dispatch table states it. -/
def primaryOutput : ContentType → String × String
  | .story => ("content_video.mp4", "video/mp4")
  | .educational => ("content_video.mp4", "video/mp4")
  | .podcast => ("podcast_audio.mp3", "audio/mpeg")
  | .article => ("article.txt", "text/plain")
  | .tweet_thread => ("tweet_thread.json", "application/json")
  | .book_chapter => ("book_chapter.txt", "text/plain")

/-- Status sequences allowed by the one-way state machine: any run of
`processing`, then, once a terminal status appears, only repetitions of that
same terminal status. -/
def statusesOK : List JobStatus → Bool
  | [] => true
  | .processing :: rest => statusesOK rest
  | .completed :: rest => rest.all (fun t => decide (t = .completed))
  | .failed :: rest => rest.all (fun t => decide (t = .failed))

/-- The guards of the `/videos` loop body that admit a job to the listing,
relative to the filesystem seen when the loop reaches it. -/
def contributes (ct_filter : Option String) (cutoff : String) (job : JobRecord)
    (fs : List String) : Prop :=
  job.status = .completed ∧ skipByFilter ct_filter job = false ∧
    ¬ job.created_at < cutoff ∧ jobVideoPath job ∈ fs

/-- No job's private video artifact path coincides with any job's public
serving path.  This holds in every deployment of the source: private paths
live under `OUTPUT_DIR/{uuid}` while public copies live under
`static/videos`. -/
def NoCollision (store : Store) : Prop :=
  ∀ p ∈ store, ∀ q ∈ store, jobVideoPath p.2 ≠ publicVideoPath q.1

/-- One `GET /status/{id}` call viewed as a state transformer: the handler
body (lines 155-160) contains no writes, so the state passes through. -/
def statusCall (s : Store × List String) (job_id : String) :
    Except HErr JobRecord × (Store × List String) :=
  (get_job_status s.1 job_id, s)

/-- One `GET /download/{id}` call viewed as a state transformer: the handler
body (lines 162-206) contains no writes, so the state passes through. -/
def downloadCall (s : Store × List String) (job_id : String) :
    Except HErr DownloadResponse × (Store × List String) :=
  (download_content s.1 s.2 job_id, s)

/-- One `GET /videos` call viewed as a state transformer: the lazy public
copies change the filesystem; the store is read-only. -/
def videosCall (s : Store × List String) (ct_filter : Option String)
    (cutoff : String) (limit : Nat) :
    List VideoInfo × (Store × List String) :=
  let r := list_videos s.1 s.2 ct_filter cutoff limit
  (r.1, (s.1, r.2))

/-- A generator environment in which every external call succeeds. -/
def sampleEnv : Env :=
  { generate_story := .ok "Once upon a time"
    generate_educational_content := .ok "Lesson one"
    generate_dialogue_content := .ok [(1, "Hi"), (2, "Hello")]
    generate_dialogue := .ok ()
    generate_podcast_from_topic := .ok "A podcast script"
    generate_free_podcast := .ok "A free podcast script"
    generate_voice_over := .ok ()
    generate_article := .ok "An article body"
    generate_tweet_thread := .ok ["t1", "t2", "t3"]
    generate_book_chapter := .ok "A chapter body"
    generate_images := .ok ["output/j1/image_0.png"]
    generate_background_music := .ok ()
    create_video_async := .ok ()
    now_completed := "2024-01-01T00:00:01"
    now_failed := "2024-01-01T00:00:02" }

/-- A story request whose script generator returns the `Error:` sentinel. -/
def envSentinel : Env := { sampleEnv with generate_story := .ok "Error: model refused" }

/-- A story request used with `envSentinel`. -/
def reqStoryW : ContentRequest := { content_type := .story, topic := "hero" }

/-- A podcast request that omits `podcast_options`. -/
def reqPodcastNoOpts : ContentRequest := { content_type := .podcast, topic := "t" }

/-- The run state right after `POST /generate` inserted `reqPodcastNoOpts`. -/
def stNoOpts : RunState :=
  { record := initialJobRecord reqPodcastNoOpts "t0" "output/j9"
    fs := []
    trace := [initialJobRecord reqPodcastNoOpts "t0" "output/j9"] }

/-- An article request. -/
def reqArticleW : ContentRequest := { content_type := .article, topic := "AI safety" }

/-- Dialogue podcast options with no dialogue list supplied. -/
def optsDialogueW : PodcastGenerationOptions := { podcast_type := .dialogue }

/-- A dialogue podcast request with an empty topic and no dialogues. -/
def reqDialogueW : ContentRequest :=
  { content_type := .podcast, topic := "", podcast_options := some optsDialogueW }

/-- Custom-text podcast options. -/
def optsCustomW : PodcastGenerationOptions :=
  { podcast_type := .custom_text, custom_text := some "Hello world" }

/-- A custom-text podcast request. -/
def reqPodcastW : ContentRequest :=
  { content_type := .podcast, topic := "t", podcast_options := some optsCustomW }

/-- A still-processing article job record. -/
def jobProcessingW : JobRecord :=
  { status := .processing, created_at := "t0", output_dir := "output/p1"
    content_type := .article }

/-- A completed podcast job record lacking `output_filename`/`media_type`
(the legacy shape the download fallback serves). -/
def jobPodcastLegacyW : JobRecord :=
  { status := .completed, created_at := "t0", output_dir := "output/p2"
    content_type := .podcast, completed_at := some "t1" }

/-- A completed story job record lacking `output_filename`/`media_type`. -/
def jobStoryLegacyW : JobRecord :=
  { status := .completed, created_at := "t0", output_dir := "output/p3"
    content_type := .story, completed_at := some "t1" }

/-- A completed tweet-thread job record with its output fields set. -/
def jobTweetDoneW : JobRecord :=
  { status := .completed, created_at := "t0", output_dir := "output/p4"
    content_type := .tweet_thread, output_filename := some "tweet_thread.json"
    media_type := some "application/json", completed_at := some "t1" }

/-- A store exercising the `/download` classification branches. -/
def storeC6 : Store :=
  [("p1", jobProcessingW), ("p2", jobPodcastLegacyW),
   ("p3", jobStoryLegacyW), ("p4", jobTweetDoneW)]

/-- The filesystem for the `/download` scenarios: only the legacy podcast
job's audio exists on disk. -/
def fsC6 : List String := [joinPath "output/p2" "podcast_audio.mp3"]

/-- A completed story job whose video artifact exists, for the `/videos`
idempotence scenario. -/
def jobStoryDoneW : JobRecord :=
  { status := .completed, created_at := "2024-06-01T00:00:00"
    output_dir := "output/v1", content_type := .story
    output_filename := some "content_video.mp4", media_type := some "video/mp4"
    completed_at := some "2024-06-01T00:05:00" }

/-- The store for the `/videos` idempotence scenario. -/
def storeC9 : Store := [("v1", jobStoryDoneW)]

/-- The filesystem for the `/videos` idempotence scenario. -/
def fsC9 : List String := [jobVideoPath jobStoryDoneW]

/-- A completed article job used for the embed endpoint scenario. -/
def jobArticleDoneW : JobRecord :=
  { status := .completed, created_at := "t0", output_dir := "output/pa"
    content_type := .article, output_filename := some "article.txt"
    media_type := some "text/plain", completed_at := some "t1" }

/-- The store for the embed endpoint scenario. -/
def storeC10 : Store := [("pa", jobArticleDoneW)]

/-- Characterization of a complete job run, shared by several claims: the
trace opens with the processing record; the status sequence follows the
one-way state machine; `audio_url` is never written; `content_type` is
preserved; and a completed record carries the dispatch table's primary output
with the artifact present in the job's output directory. -/
theorem fullRun_spec (req : ContentRequest) (env : Env) (jid now base : String)
    (fs0 : List String) :
    ((fullRun req env jid now base fs0).trace.map JobRecord.status).head? = some .processing ∧
    statusesOK ((fullRun req env jid now base fs0).trace.map JobRecord.status) = true ∧
    (fullRun req env jid now base fs0).record.audio_url = none ∧
    (fullRun req env jid now base fs0).record.content_type = req.content_type ∧
    ((fullRun req env jid now base fs0).record.status = .completed →
      (fullRun req env jid now base fs0).record.output_filename
          = some (primaryOutput req.content_type).1 ∧
      (fullRun req env jid now base fs0).record.media_type
          = some (primaryOutput req.content_type).2 ∧
      joinPath (joinPath base jid) (primaryOutput req.content_type).1
          ∈ (fullRun req env jid now base fs0).fs ∧
      (fullRun req env jid now base fs0).record.completed_at = some env.now_completed) := by
  obtain ⟨ct, topic, vp, es, dl, po, vn, ao, tw, bo, dlw, stt⟩ := req
  obtain ⟨gs, gec, gdc, gd, gpt, gfp, gvo, ga, gtt, gbc, gi, gbm, cva, nc, nf⟩ := env
  cases ct
  case story =>
    rcases gs with e | s <;> rcases gi with e2 | imgs <;> rcases gvo with e3 | u3 <;>
      rcases gbm with e4 | u4 <;> rcases cva with e5 | u5 <;>
      simp [fullRun, process_content_generation, runBody, runStoryBranch,
        runMediaGeneration, writeJob, writeFile, joinPath, initialJobRecord,
        statusesOK, primaryOutput]
  case educational =>
    rcases gec with e | s <;> rcases gi with e2 | imgs <;> rcases gvo with e3 | u3 <;>
      rcases gbm with e4 | u4 <;> rcases cva with e5 | u5 <;>
      simp [fullRun, process_content_generation, runBody, runStoryBranch,
        runMediaGeneration, writeJob, writeFile, joinPath, initialJobRecord,
        statusesOK, primaryOutput]
  case podcast =>
    rcases po with _ | opts
    · simp [fullRun, process_content_generation, runBody, runPodcastBranch,
        writeJob, writeFile, joinPath, initialJobRecord, statusesOK, primaryOutput]
    · obtain ⟨ptype, ctext, ptopic, pdial, v1, v2, nex⟩ := opts
      cases ptype
      case custom_text =>
        rcases gvo with e | u <;>
          simp [fullRun, process_content_generation, runBody, runPodcastBranch,
            writeJob, writeFile, joinPath, initialJobRecord, statusesOK, primaryOutput]
      case topic_based =>
        rcases gpt with e | s <;> rcases gvo with e2 | u <;>
          simp [fullRun, process_content_generation, runBody, runPodcastBranch,
            writeJob, writeFile, joinPath, initialJobRecord, statusesOK, primaryOutput,
            Except.map]
      case free_generation =>
        rcases gfp with e | s <;> rcases gvo with e2 | u <;>
          simp [fullRun, process_content_generation, runBody, runPodcastBranch,
            writeJob, writeFile, joinPath, initialJobRecord, statusesOK, primaryOutput,
            Except.map]
      case dialogue =>
        by_cases hdf : optListFalsy pdial = true
        · by_cases htop : topic = ""
          · simp [fullRun, process_content_generation, runBody, runPodcastBranch,
              writeJob, writeFile, joinPath, initialJobRecord, statusesOK, primaryOutput,
              hdf, htop]
          · rcases gdc with e | dlst <;> rcases gd with e2 | u <;>
              simp [fullRun, process_content_generation, runBody, runPodcastBranch,
                writeJob, writeFile, joinPath, initialJobRecord, statusesOK, primaryOutput,
                hdf, htop]
        · rcases gd with e2 | u <;>
            simp [fullRun, process_content_generation, runBody, runPodcastBranch,
              writeJob, writeFile, joinPath, initialJobRecord, statusesOK, primaryOutput,
              hdf]
  case article =>
    rcases ga with e | s
    · simp [fullRun, process_content_generation, runBody, runArticleBranch,
        writeJob, writeFile, joinPath, initialJobRecord, statusesOK, primaryOutput]
    · by_cases hsw : pyStartsWith s "Error:" = true <;>
        simp [fullRun, process_content_generation, runBody, runArticleBranch,
          writeJob, writeFile, joinPath, initialJobRecord, statusesOK, primaryOutput, hsw]
  case tweet_thread =>
    rcases gtt with e | l
    · simp [fullRun, process_content_generation, runBody, runTweetBranch,
        writeJob, writeFile, joinPath, initialJobRecord, statusesOK, primaryOutput]
    · rcases l with _ | ⟨first, rest⟩
      · simp [fullRun, process_content_generation, runBody, runTweetBranch,
          writeJob, writeFile, joinPath, initialJobRecord, statusesOK, primaryOutput]
      · by_cases hsw : pyStartsWith first "Error:" = true <;>
          simp [fullRun, process_content_generation, runBody, runTweetBranch,
            writeJob, writeFile, joinPath, initialJobRecord, statusesOK, primaryOutput, hsw]
  case book_chapter =>
    rcases gbc with e | s
    · simp [fullRun, process_content_generation, runBody, runBookBranch,
        writeJob, writeFile, joinPath, initialJobRecord, statusesOK, primaryOutput]
    · by_cases hsw : pyStartsWith s "Error:" = true <;>
        simp [fullRun, process_content_generation, runBody, runBookBranch,
          writeJob, writeFile, joinPath, initialJobRecord, statusesOK, primaryOutput, hsw]

/-- C1: any exception raised during the body of the job runner is caught at
the runner boundary and converted into a terminal failed job record whose
`error` field holds the exception's message string and whose `failed_at`
field holds the failure timestamp.  `process_content_generation` is a total
function of its inputs, so no exception propagates out of the runner. -/
theorem runner_converts_exceptions (req : ContentRequest) (env : Env)
    (output_dir : String) (st : RunState) (e : String)
    (h : (runBody req env output_dir st).2 = some e) :
    (process_content_generation req env output_dir st).record.status = .failed ∧
    (process_content_generation req env output_dir st).record.error = some e ∧
    (process_content_generation req env output_dir st).record.failed_at
        = some env.now_failed := by
  rcases hrb : runBody req env output_dir st with ⟨st1, r⟩
  rw [hrb] at h
  simp only at h
  subst h
  simp [process_content_generation, hrb, writeJob]

/-- Witness for C1: a podcast request without podcast options makes the body
raise, and the runner stores the failure. -/
theorem runner_converts_exceptions_witness :
    (runBody reqPodcastNoOpts sampleEnv "output/j9" stNoOpts).2
        = some "Podcast options not provided for podcast content type." ∧
    (process_content_generation reqPodcastNoOpts sampleEnv "output/j9" stNoOpts).record.status
        = .failed ∧
    (process_content_generation reqPodcastNoOpts sampleEnv "output/j9" stNoOpts).record.error
        = some "Podcast options not provided for podcast content type." ∧
    (process_content_generation reqPodcastNoOpts sampleEnv "output/j9" stNoOpts).record.failed_at
        = some sampleEnv.now_failed :=
  ⟨rfl, runner_converts_exceptions reqPodcastNoOpts sampleEnv "output/j9" stNoOpts _ rfl⟩

/-- C2: a job's record is created with status `processing`, and along the
whole trace of store writes the status changes at most once, to `completed`
or `failed`; once a terminal status is reached it never reverts to
`processing` nor flips between the terminal states. -/
theorem job_status_one_way (req : ContentRequest) (env : Env)
    (job_id now OUTPUT_DIR : String) (fs0 : List String) :
    ((fullRun req env job_id now OUTPUT_DIR fs0).trace.map JobRecord.status).head?
        = some .processing ∧
    statusesOK ((fullRun req env job_id now OUTPUT_DIR fs0).trace.map JobRecord.status)
        = true :=
  ⟨(fullRun_spec req env job_id now OUTPUT_DIR fs0).1,
   (fullRun_spec req env job_id now OUTPUT_DIR fs0).2.1⟩

/-- C4: every job that reaches status `completed` carries the primary output
filename and media type of the dispatch table for its content type, and that
filename names a file written under the job's output directory. -/
theorem completed_job_primary_output (req : ContentRequest) (env : Env)
    (job_id now OUTPUT_DIR : String) (fs0 : List String)
    (h : (fullRun req env job_id now OUTPUT_DIR fs0).record.status = .completed) :
    (fullRun req env job_id now OUTPUT_DIR fs0).record.output_filename
        = some (primaryOutput req.content_type).1 ∧
    (fullRun req env job_id now OUTPUT_DIR fs0).record.media_type
        = some (primaryOutput req.content_type).2 ∧
    joinPath (joinPath OUTPUT_DIR job_id) (primaryOutput req.content_type).1
        ∈ (fullRun req env job_id now OUTPUT_DIR fs0).fs :=
  ⟨((fullRun_spec req env job_id now OUTPUT_DIR fs0).2.2.2.2 h).1,
   ((fullRun_spec req env job_id now OUTPUT_DIR fs0).2.2.2.2 h).2.1,
   ((fullRun_spec req env job_id now OUTPUT_DIR fs0).2.2.2.2 h).2.2.1⟩

/-- Witness for C4: the article scenario completes with `article.txt`,
`text/plain`, and the file under the job directory. -/
theorem completed_job_primary_output_witness :
    (fullRun reqArticleW sampleEnv "j1" "t0" "output" []).record.status = .completed ∧
    (fullRun reqArticleW sampleEnv "j1" "t0" "output" []).record.output_filename
        = some (primaryOutput reqArticleW.content_type).1 ∧
    (fullRun reqArticleW sampleEnv "j1" "t0" "output" []).record.media_type
        = some (primaryOutput reqArticleW.content_type).2 ∧
    joinPath (joinPath "output" "j1") (primaryOutput reqArticleW.content_type).1
        ∈ (fullRun reqArticleW sampleEnv "j1" "t0" "output" []).fs :=
  ⟨rfl, completed_job_primary_output reqArticleW sampleEnv "j1" "t0" "output" [] rfl⟩

/-- C5: `POST /generate` inserts a processing job record into the store and
schedules the job runner with exactly the job id, request, and output
directory before returning; the handler consults no generator (its model does
not even take an `Env`), and the returned job id immediately resolves through
`GET /status/{id}` to the processing record. -/
theorem generate_schedules_and_status_resolves (store : Store) (req : ContentRequest)
    (job_id now OUTPUT_DIR : String) :
    lookupJob (generate_content_endpoint store req job_id now OUTPUT_DIR).1 job_id
        = some (initialJobRecord req now (joinPath OUTPUT_DIR job_id)) ∧
    (initialJobRecord req now (joinPath OUTPUT_DIR job_id)).status = .processing ∧
    get_job_status (generate_content_endpoint store req job_id now OUTPUT_DIR).1 job_id
        = .ok (initialJobRecord req now (joinPath OUTPUT_DIR job_id)) ∧
    (generate_content_endpoint store req job_id now OUTPUT_DIR).2.1.job_id = job_id ∧
    (generate_content_endpoint store req job_id now OUTPUT_DIR).2.1.status = "processing" ∧
    (generate_content_endpoint store req job_id now OUTPUT_DIR).2.2
        = { job_id := job_id, request := req, output_dir := joinPath OUTPUT_DIR job_id } := by
  refine ⟨?_, rfl, ?_, rfl, rfl, rfl⟩ <;>
    simp [generate_content_endpoint, get_job_status, lookupJob]

/-- C7: a dialogue podcast request that supplies no dialogue list and an
empty topic fails with the non-empty stored message naming the missing topic
for dialogue generation. -/
theorem dialogue_podcast_requires_topic (req : ContentRequest) (env : Env)
    (job_id now OUTPUT_DIR : String) (fs0 : List String)
    (opts : PodcastGenerationOptions)
    (h1 : req.content_type = .podcast)
    (h2 : req.podcast_options = some opts)
    (h3 : opts.podcast_type = .dialogue)
    (h4 : optListFalsy opts.dialogues = true)
    (h5 : req.topic = "") :
    (fullRun req env job_id now OUTPUT_DIR fs0).record.status = .failed ∧
    (fullRun req env job_id now OUTPUT_DIR fs0).record.error
        = some "Topic is required for automatic dialogue generation" ∧
    "Topic is required for automatic dialogue generation" ≠ "" ∧
    (fullRun req env job_id now OUTPUT_DIR fs0).record.failed_at = some env.now_failed := by
  refine ⟨?_, ?_, by decide, ?_⟩ <;>
    simp [fullRun, process_content_generation, runBody, runPodcastBranch,
      h1, h2, h3, h4, h5, writeJob, writeFile, initialJobRecord, joinPath]

/-- Witness for C7: the concrete dialogue request with empty topic fails with
the stored message. -/
theorem dialogue_podcast_requires_topic_witness :
    reqDialogueW.content_type = .podcast ∧
    reqDialogueW.podcast_options = some optsDialogueW ∧
    optsDialogueW.podcast_type = .dialogue ∧
    optListFalsy optsDialogueW.dialogues = true ∧
    reqDialogueW.topic = "" ∧
    ((fullRun reqDialogueW sampleEnv "j7" "t0" "output" []).record.status = .failed ∧
     (fullRun reqDialogueW sampleEnv "j7" "t0" "output" []).record.error
        = some "Topic is required for automatic dialogue generation" ∧
     "Topic is required for automatic dialogue generation" ≠ "" ∧
     (fullRun reqDialogueW sampleEnv "j7" "t0" "output" []).record.failed_at
        = some sampleEnv.now_failed) :=
  ⟨rfl, rfl, rfl, rfl, rfl,
   dialogue_podcast_requires_topic reqDialogueW sampleEnv "j7" "t0" "output" []
     optsDialogueW rfl rfl rfl rfl rfl⟩

/-- C8 evaluation: the job runner never writes `audio_url` (nor any public
copy of the podcast audio), so for every completed podcast job
`GET /podcast/{id}/info` answers with `audio_url = none`. -/
theorem podcast_info_audio_url_null (req : ContentRequest) (env : Env)
    (job_id now OUTPUT_DIR : String) (fs0 : List String)
    (hct : req.content_type = .podcast)
    (hdone : (fullRun req env job_id now OUTPUT_DIR fs0).record.status = .completed) :
    (fullRun req env job_id now OUTPUT_DIR fs0).record.audio_url = none ∧
    get_podcast_info [(job_id, (fullRun req env job_id now OUTPUT_DIR fs0).record)] job_id
        = .ok { job_id := job_id
                content_type := "podcast"
                created_at := (fullRun req env job_id now OUTPUT_DIR fs0).record.created_at
                completed_at := (fullRun req env job_id now OUTPUT_DIR fs0).record.completed_at
                audio_url := none
                download_url := "/download/" ++ job_id } := by
  have hs := fullRun_spec req env job_id now OUTPUT_DIR fs0
  refine ⟨hs.2.2.1, ?_⟩
  simp [get_podcast_info, lookupJob, hs.2.2.2.1, hct, hdone, hs.2.2.1, ContentType.toStr]

/-- Witness for C8: the custom-text podcast scenario completes, and the info
endpoint reports a null `audio_url`. -/
theorem podcast_info_audio_url_null_witness :
    reqPodcastW.content_type = .podcast ∧
    (fullRun reqPodcastW sampleEnv "j8" "t0" "output" []).record.status = .completed ∧
    ((fullRun reqPodcastW sampleEnv "j8" "t0" "output" []).record.audio_url = none ∧
     get_podcast_info [("j8", (fullRun reqPodcastW sampleEnv "j8" "t0" "output" []).record)] "j8"
        = .ok { job_id := "j8"
                content_type := "podcast"
                created_at := (fullRun reqPodcastW sampleEnv "j8" "t0" "output" []).record.created_at
                completed_at := (fullRun reqPodcastW sampleEnv "j8" "t0" "output" []).record.completed_at
                audio_url := none
                download_url := "/download/" ++ "j8" }) :=
  ⟨rfl, rfl, podcast_info_audio_url_null reqPodcastW sampleEnv "j8" "t0" "output" [] rfl rfl⟩

/-- C3 counterexample: a story whose script generator returns an
`Error:`-prefixed string is not treated as a failure — the runner writes the
sentinel text as the script and, with the media steps succeeding, completes
the job with no recorded error. -/
theorem story_sentinel_not_inspected :
    envSentinel.generate_story = .ok "Error: model refused" ∧
    pyStartsWith "Error: model refused" "Error:" = true ∧
    (fullRun reqStoryW envSentinel "j2" "t0" "output" []).record.status = .completed ∧
    (fullRun reqStoryW envSentinel "j2" "t0" "output" []).record.error = none :=
  ⟨rfl, by decide, rfl, rfl⟩

/-- C3 amended: the `Error:` sentinel inspection is performed only by the
article, tweet-thread (on the first element of a non-empty result list), and
book-chapter pipelines, which then fail the job with the corresponding
message; the story, educational, and podcast pipelines perform no such
inspection. -/
theorem sentinel_checked_for_text_trio (req : ContentRequest) (env : Env)
    (job_id now OUTPUT_DIR : String) (fs0 : List String) :
    (∀ s, req.content_type = .article → env.generate_article = .ok s →
      pyStartsWith s "Error:" = true →
      (fullRun req env job_id now OUTPUT_DIR fs0).record.status = .failed ∧
      (fullRun req env job_id now OUTPUT_DIR fs0).record.error
          = some ("Article generation failed: " ++ s)) ∧
    (∀ first rest, req.content_type = .tweet_thread →
      env.generate_tweet_thread = .ok (first :: rest) →
      pyStartsWith first "Error:" = true →
      (fullRun req env job_id now OUTPUT_DIR fs0).record.status = .failed ∧
      (fullRun req env job_id now OUTPUT_DIR fs0).record.error
          = some ("Tweet thread generation failed: " ++ first)) ∧
    (∀ s, req.content_type = .book_chapter → env.generate_book_chapter = .ok s →
      pyStartsWith s "Error:" = true →
      (fullRun req env job_id now OUTPUT_DIR fs0).record.status = .failed ∧
      (fullRun req env job_id now OUTPUT_DIR fs0).record.error
          = some ("Book chapter generation failed: " ++ s)) := by
  refine ⟨?_, ?_, ?_⟩
  · intro s hct hga hsw
    constructor <;>
      simp [fullRun, process_content_generation, runBody, runArticleBranch,
        hct, hga, hsw, writeJob, writeFile, initialJobRecord, joinPath]
  · intro first rest hct hgt hsw
    constructor <;>
      simp [fullRun, process_content_generation, runBody, runTweetBranch,
        hct, hgt, hsw, writeJob, writeFile, initialJobRecord, joinPath]
  · intro s hct hgb hsw
    constructor <;>
      simp [fullRun, process_content_generation, runBody, runBookBranch,
        hct, hgb, hsw, writeJob, writeFile, initialJobRecord, joinPath]

/-- Witness for the amended C3: an article whose generator returns the
sentinel fails with the wrapped message. -/
theorem sentinel_checked_for_text_trio_witness :
    reqArticleW.content_type = .article ∧
    (Env.generate_article { sampleEnv with generate_article := .ok "Error: quota" })
        = .ok "Error: quota" ∧
    pyStartsWith "Error: quota" "Error:" = true ∧
    ((fullRun reqArticleW { sampleEnv with generate_article := .ok "Error: quota" }
        "j3" "t0" "output" []).record.status = .failed ∧
     (fullRun reqArticleW { sampleEnv with generate_article := .ok "Error: quota" }
        "j3" "t0" "output" []).record.error
        = some ("Article generation failed: " ++ "Error: quota")) :=
  ⟨rfl, rfl, by decide,
   (sentinel_checked_for_text_trio reqArticleW
      { sampleEnv with generate_article := .ok "Error: quota" }
      "j3" "t0" "output" []).1 "Error: quota" rfl rfl (by decide)⟩

/-- C6: `GET /download/{id}` answers 404 "Job not found" for an unknown id; a
distinct 400 "not completed" error for a known non-completed id; for a
completed record lacking `output_filename`/`media_type` it falls back to the
legacy default of its content type (podcast audio, story/educational video)
resolved against the job's output directory; and when a resolved artifact is
missing on disk it answers a 404 naming the file. -/
theorem download_error_paths (store : Store) (fs : List String) (job_id : String) :
    (lookupJob store job_id = none →
      download_content store fs job_id
          = .error { status_code := 404, detail := "Job not found" }) ∧
    (∀ job, lookupJob store job_id = some job → job.status ≠ .completed →
      download_content store fs job_id
          = .error { status_code := 400, detail := "Content generation not completed" } ∧
      ({ status_code := 400, detail := "Content generation not completed" } : HErr)
          ≠ { status_code := 404, detail := "Job not found" }) ∧
    (∀ job, lookupJob store job_id = some job → job.status = .completed →
      (optStrFalsy job.output_filename ∨ optStrFalsy job.media_type) →
      job.content_type = .podcast →
      joinPath job.output_dir "podcast_audio.mp3" ∈ fs →
      ∃ resp, download_content store fs job_id = .ok resp ∧
        resp.file_path = joinPath job.output_dir "podcast_audio.mp3" ∧
        resp.media_type = "audio/mpeg") ∧
    (∀ job, lookupJob store job_id = some job → job.status = .completed →
      (optStrFalsy job.output_filename ∨ optStrFalsy job.media_type) →
      job.content_type = .podcast →
      joinPath job.output_dir "podcast_audio.mp3" ∉ fs →
      download_content store fs job_id
          = .error { status_code := 404
                     detail := "podcast_audio.mp3" ++ " not found in job output." }) ∧
    (∀ job, lookupJob store job_id = some job → job.status = .completed →
      (optStrFalsy job.output_filename ∨ optStrFalsy job.media_type) →
      (job.content_type = .story ∨ job.content_type = .educational) →
      joinPath job.output_dir "content_video.mp4" ∈ fs →
      ∃ resp, download_content store fs job_id = .ok resp ∧
        resp.file_path = joinPath job.output_dir "content_video.mp4" ∧
        resp.media_type = "video/mp4") ∧
    (∀ job, lookupJob store job_id = some job → job.status = .completed →
      (optStrFalsy job.output_filename ∨ optStrFalsy job.media_type) →
      (job.content_type = .story ∨ job.content_type = .educational) →
      joinPath job.output_dir "content_video.mp4" ∉ fs →
      download_content store fs job_id
          = .error { status_code := 404
                     detail := "content_video.mp4" ++ " not found in job output." }) ∧
    (∀ job ofn mt, lookupJob store job_id = some job → job.status = .completed →
      job.output_filename = some ofn → ofn ≠ "" →
      job.media_type = some mt → mt ≠ "" →
      joinPath job.output_dir ofn ∉ fs →
      download_content store fs job_id
          = .error { status_code := 404, detail := ofn ++ " not found in job output." }) := by
  refine ⟨?_, ?_, ?_, ?_, ?_, ?_, ?_⟩
  · intro hnone
    simp [download_content, hnone]
  · intro job hsome hproc
    refine ⟨?_, by decide⟩
    simp [download_content, hsome, hproc]
  · intro job hsome hdone hfalsy hpod hmem
    have hse : (splitext "podcast_audio.mp3").2 = ".mp3" := by decide
    refine ⟨{ file_path := joinPath job.output_dir "podcast_audio.mp3"
              media_type := "audio/mpeg"
              filename := ContentType.toStr job.content_type ++ "_" ++ job_id ++ ".mp3" },
            ?_, rfl, rfl⟩
    simp [download_content, hsome, hdone, hfalsy, hpod, hmem, hse]
  · intro job hsome hdone hfalsy hpod hmem
    simp [download_content, hsome, hdone, hfalsy, hpod, hmem]
  · intro job hsome hdone hfalsy hvid hmem
    have hnp : job.content_type ≠ .podcast := by
      rcases hvid with h | h <;> simp [h]
    have hse : (splitext "content_video.mp4").2 = ".mp4" := by decide
    refine ⟨{ file_path := joinPath job.output_dir "content_video.mp4"
              media_type := "video/mp4"
              filename := ContentType.toStr job.content_type ++ "_" ++ job_id ++ ".mp4" },
            ?_, rfl, rfl⟩
    simp [download_content, hsome, hdone, hfalsy, hnp, hvid, hmem, hse]
  · intro job hsome hdone hfalsy hvid hmem
    have hnp : job.content_type ≠ .podcast := by
      rcases hvid with h | h <;> simp [h]
    simp [download_content, hsome, hdone, hfalsy, hnp, hvid, hmem]
  · intro job ofn mt hsome hdone hofn hofnne hmt hmtne hmem
    have hofnb : optStrFalsy (some ofn) = false := by simp [optStrFalsy, hofnne]
    have hmtb : optStrFalsy (some mt) = false := by simp [optStrFalsy, hmtne]
    simp [download_content, hsome, hdone, hofn, hmt, hofnb, hmtb, hmem]

/-- Witness for C6: the four concrete download scenarios — unknown id,
processing job, legacy podcast fallback with the audio present, legacy story
fallback with the video absent, and a completed tweet job whose artifact is
missing. -/
theorem download_error_paths_witness :
    download_content storeC6 fsC6 "zz"
        = .error { status_code := 404, detail := "Job not found" } ∧
    download_content storeC6 fsC6 "p1"
        = .error { status_code := 400, detail := "Content generation not completed" } ∧
    (∃ resp, download_content storeC6 fsC6 "p2" = .ok resp ∧
      resp.file_path = joinPath "output/p2" "podcast_audio.mp3" ∧
      resp.media_type = "audio/mpeg") ∧
    download_content storeC6 fsC6 "p3"
        = .error { status_code := 404
                   detail := "content_video.mp4" ++ " not found in job output." } ∧
    download_content storeC6 fsC6 "p4"
        = .error { status_code := 404
                   detail := "tweet_thread.json" ++ " not found in job output." } :=
  ⟨(download_error_paths storeC6 fsC6 "zz").1 rfl,
   ((download_error_paths storeC6 fsC6 "p1").2.1 jobProcessingW rfl (by decide)).1,
   (download_error_paths storeC6 fsC6 "p2").2.2.1 jobPodcastLegacyW rfl rfl
     (by decide) rfl (by decide),
   (download_error_paths storeC6 fsC6 "p3").2.2.2.2.2.1 jobStoryLegacyW rfl rfl
     (by decide) (Or.inl rfl) (by decide),
   (download_error_paths storeC6 fsC6 "p4").2.2.2.2.2.2 jobTweetDoneW
     "tweet_thread.json" "application/json" rfl rfl rfl (by decide) rfl (by decide)
     (by decide)⟩

/-- C10: `GET /video/{id}/embed` answers a successful HTML document
referencing `/static/videos/{id}.mp4` for every completed job, of any content
type, without consulting the filesystem — while `/video/{id}/stream` and
`/video/{id}/info` answer a 404 when the video file is absent. -/
theorem embed_ignores_file_existence (store : Store) (fs : List String)
    (job_id : String) (job : JobRecord)
    (h1 : lookupJob store job_id = some job)
    (h2 : job.status = .completed) :
    get_video_embed store job_id
        = .ok (embedHtml (ContentType.toStr job.content_type).capitalize
              ("/static/videos/" ++ job_id ++ ".mp4")) ∧
    (jobVideoPath job ∉ fs →
      stream_video store fs job_id
          = .error { status_code := 404, detail := "Video file not found" } ∧
      get_video_info store fs job_id
          = .error { status_code := 404, detail := "Video file not found" }) := by
  constructor
  · simp [get_video_embed, h1, h2]
  · intro hnf
    constructor <;> simp [stream_video, get_video_info, h1, h2, hnf]

/-- Witness for C10: a completed article job with an empty filesystem — embed
succeeds, stream and info answer 404. -/
theorem embed_ignores_file_existence_witness :
    lookupJob storeC10 "pa" = some jobArticleDoneW ∧
    jobArticleDoneW.status = .completed ∧
    jobVideoPath jobArticleDoneW ∉ ([] : List String) ∧
    (get_video_embed storeC10 "pa"
        = .ok (embedHtml (ContentType.toStr jobArticleDoneW.content_type).capitalize
              ("/static/videos/" ++ "pa" ++ ".mp4")) ∧
     (stream_video storeC10 [] "pa"
          = .error { status_code := 404, detail := "Video file not found" } ∧
      get_video_info storeC10 [] "pa"
          = .error { status_code := 404, detail := "Video file not found" })) :=
  ⟨rfl, rfl, by decide,
   (embed_ignores_file_existence storeC10 [] "pa" jobArticleDoneW rfl rfl).1,
   (embed_ignores_file_existence storeC10 [] "pa" jobArticleDoneW rfl rfl).2 (by decide)⟩

/-- Unfolding of the `/videos` loop when the head job is skipped by any of
its four guards. -/
theorem listVideosLoop_cons_skip (ctf : Option String) (cutoff jid : String)
    (job : JobRecord) (rest : Store) (fs : List String)
    (h : job.status ≠ .completed ∨ skipByFilter ctf job = true ∨
      job.created_at < cutoff ∨ jobVideoPath job ∉ fs) :
    listVideosLoop ctf cutoff ((jid, job) :: rest) fs
      = listVideosLoop ctf cutoff rest fs := by
  simp only [listVideosLoop]
  split_ifs with h1 h2 h3 h4 h5 <;>
    first
    | rfl
    | (exfalso; rcases h with h | h | h | h <;> simp_all)

/-- Unfolding of the `/videos` loop when the head job is listed: its public
copy is materialized if absent and the loop continues on the grown
filesystem. -/
theorem listVideosLoop_cons_go (ctf : Option String) (cutoff jid : String)
    (job : JobRecord) (rest : Store) (fs : List String)
    (h1 : job.status = .completed) (h2 : skipByFilter ctf job = false)
    (h3 : ¬ job.created_at < cutoff) (h4 : jobVideoPath job ∈ fs) :
    listVideosLoop ctf cutoff ((jid, job) :: rest) fs =
      ({ job_id := jid
         content_type := ContentType.toStr job.content_type
         created_at := job.created_at
         video_url := "/static/videos/" ++ jid ++ ".mp4" }
          :: (listVideosLoop ctf cutoff rest
              (if publicVideoPath jid ∈ fs then fs else publicVideoPath jid :: fs)).1,
       (listVideosLoop ctf cutoff rest
          (if publicVideoPath jid ∈ fs then fs else publicVideoPath jid :: fs)).2) := by
  simp [listVideosLoop, h1, h2, h3, h4]

/-- Membership in a conditionally grown filesystem is unchanged for paths
other than the inserted one. -/
theorem mem_condIns {p a : String} {fs : List String} (h : p ≠ a) (c : Prop)
    [Decidable c] : (p ∈ (if c then fs else a :: fs)) ↔ p ∈ fs := by
  split <;> simp [h]

/-- The `/videos` loop only grows the filesystem. -/
theorem listVideosLoop_fs_mono (ctf : Option String) (cutoff : String) :
    ∀ (l : Store) (fs : List String), fs ⊆ (listVideosLoop ctf cutoff l fs).2 := by
  intro l
  induction l with
  | nil => intro fs; simp [listVideosLoop]
  | cons hd rest ih =>
    obtain ⟨jid, job⟩ := hd
    intro fs
    by_cases h1 : job.status = .completed
    case neg =>
      rw [listVideosLoop_cons_skip ctf cutoff jid job rest fs (Or.inl h1)]
      exact ih fs
    by_cases h2 : skipByFilter ctf job = true
    case pos =>
      rw [listVideosLoop_cons_skip ctf cutoff jid job rest fs (Or.inr (Or.inl h2))]
      exact ih fs
    by_cases h3 : job.created_at < cutoff
    case pos =>
      rw [listVideosLoop_cons_skip ctf cutoff jid job rest fs (Or.inr (Or.inr (Or.inl h3)))]
      exact ih fs
    by_cases h4 : jobVideoPath job ∈ fs
    case neg =>
      rw [listVideosLoop_cons_skip ctf cutoff jid job rest fs (Or.inr (Or.inr (Or.inr h4)))]
      exact ih fs
    rw [listVideosLoop_cons_go ctf cutoff jid job rest fs h1
      (by simpa using h2) h3 h4]
    intro p hp
    refine ih _ ?_
    split <;> simp [hp]

/-- Every path present after the `/videos` loop was present before or is one
of the public copy paths of the listed store. -/
theorem listVideosLoop_fs_from (ctf : Option String) (cutoff : String) :
    ∀ (l : Store) (fs : List String) (p : String),
      p ∈ (listVideosLoop ctf cutoff l fs).2 →
      p ∈ fs ∨ ∃ q ∈ l, p = publicVideoPath q.1 := by
  intro l
  induction l with
  | nil => intro fs p hp; simp [listVideosLoop] at hp; exact Or.inl hp
  | cons hd rest ih =>
    obtain ⟨jid, job⟩ := hd
    intro fs p hp
    by_cases h1 : job.status = .completed
    case neg =>
      rw [listVideosLoop_cons_skip ctf cutoff jid job rest fs (Or.inl h1)] at hp
      rcases ih fs p hp with h | ⟨q, hq, hq2⟩
      · exact Or.inl h
      · exact Or.inr ⟨q, List.mem_cons_of_mem _ hq, hq2⟩
    by_cases h2 : skipByFilter ctf job = true
    case pos =>
      rw [listVideosLoop_cons_skip ctf cutoff jid job rest fs (Or.inr (Or.inl h2))] at hp
      rcases ih fs p hp with h | ⟨q, hq, hq2⟩
      · exact Or.inl h
      · exact Or.inr ⟨q, List.mem_cons_of_mem _ hq, hq2⟩
    by_cases h3 : job.created_at < cutoff
    case pos =>
      rw [listVideosLoop_cons_skip ctf cutoff jid job rest fs
        (Or.inr (Or.inr (Or.inl h3)))] at hp
      rcases ih fs p hp with h | ⟨q, hq, hq2⟩
      · exact Or.inl h
      · exact Or.inr ⟨q, List.mem_cons_of_mem _ hq, hq2⟩
    by_cases h4 : jobVideoPath job ∈ fs
    case neg =>
      rw [listVideosLoop_cons_skip ctf cutoff jid job rest fs
        (Or.inr (Or.inr (Or.inr h4)))] at hp
      rcases ih fs p hp with h | ⟨q, hq, hq2⟩
      · exact Or.inl h
      · exact Or.inr ⟨q, List.mem_cons_of_mem _ hq, hq2⟩
    rw [listVideosLoop_cons_go ctf cutoff jid job rest fs h1
      (by simpa using h2) h3 h4] at hp
    simp only at hp
    rcases ih _ p hp with h | ⟨q, hq, hq2⟩
    · by_cases hpub : publicVideoPath jid ∈ fs
      · rw [if_pos hpub] at h; exact Or.inl h
      · rw [if_neg hpub] at h
        rcases List.mem_cons.mp h with h | h
        · exact Or.inr ⟨(jid, job), List.mem_cons_self _ _, h⟩
        · exact Or.inl h
    · exact Or.inr ⟨q, List.mem_cons_of_mem _ hq, hq2⟩

/-- A job that the `/videos` loop lists has its public copy present in the
resulting filesystem. -/
theorem listVideosLoop_pp_mem (ctf : Option String) (cutoff : String) :
    ∀ (l : Store) (fs : List String) (jid : String) (job : JobRecord),
      (jid, job) ∈ l → contributes ctf cutoff job fs →
      publicVideoPath jid ∈ (listVideosLoop ctf cutoff l fs).2 := by
  intro l
  induction l with
  | nil => intro fs jid job hmem; simp at hmem
  | cons hd rest ih =>
    obtain ⟨kid, kjob⟩ := hd
    intro fs jid job hmem hc
    obtain ⟨hc1, hc2, hc3, hc4⟩ := hc
    rcases List.mem_cons.mp hmem with heq | hmem2
    · injection heq with e1 e2
      subst e1; subst e2
      rw [listVideosLoop_cons_go ctf cutoff jid job rest fs hc1 hc2 hc3 hc4]
      simp only
      refine listVideosLoop_fs_mono ctf cutoff rest _ ?_
      split <;> simp_all
    · by_cases h1 : kjob.status = .completed
      case neg =>
        rw [listVideosLoop_cons_skip ctf cutoff kid kjob rest fs (Or.inl h1)]
        exact ih fs jid job hmem2 ⟨hc1, hc2, hc3, hc4⟩
      by_cases h2 : skipByFilter ctf kjob = true
      case pos =>
        rw [listVideosLoop_cons_skip ctf cutoff kid kjob rest fs (Or.inr (Or.inl h2))]
        exact ih fs jid job hmem2 ⟨hc1, hc2, hc3, hc4⟩
      by_cases h3 : kjob.created_at < cutoff
      case pos =>
        rw [listVideosLoop_cons_skip ctf cutoff kid kjob rest fs
          (Or.inr (Or.inr (Or.inl h3)))]
        exact ih fs jid job hmem2 ⟨hc1, hc2, hc3, hc4⟩
      by_cases h4 : jobVideoPath kjob ∈ fs
      case neg =>
        rw [listVideosLoop_cons_skip ctf cutoff kid kjob rest fs
          (Or.inr (Or.inr (Or.inr h4)))]
        exact ih fs jid job hmem2 ⟨hc1, hc2, hc3, hc4⟩
      rw [listVideosLoop_cons_go ctf cutoff kid kjob rest fs h1
        (by simpa using h2) h3 h4]
      simp only
      refine ih _ jid job hmem2 ⟨hc1, hc2, hc3, ?_⟩
      split <;> simp [hc4]

/-- Running the `/videos` loop again, on a filesystem that already contains
everything a first pass added (and whose extra paths are only public copy
paths), produces the same listing and changes nothing. -/
theorem listVideosLoop_pass2 (ctf : Option String) (cutoff : String) :
    ∀ (l : Store) (fs g : List String),
      (∀ p ∈ l, ∀ q ∈ l, jobVideoPath p.2 ≠ publicVideoPath q.1) →
      (∀ q ∈ l, (jobVideoPath q.2 ∈ g ↔ jobVideoPath q.2 ∈ fs)) →
      (∀ q ∈ l, contributes ctf cutoff q.2 fs → publicVideoPath q.1 ∈ g) →
      listVideosLoop ctf cutoff l g = ((listVideosLoop ctf cutoff l fs).1, g) := by
  intro l
  induction l with
  | nil => intro fs g _ _ _; simp [listVideosLoop]
  | cons hd rest ih =>
    obtain ⟨jid, job⟩ := hd
    intro fs g hcol hvp hpp
    have hcol2 : ∀ p ∈ rest, ∀ q ∈ rest, jobVideoPath p.2 ≠ publicVideoPath q.1 :=
      fun p hp q hq => hcol p (List.mem_cons_of_mem _ hp) q (List.mem_cons_of_mem _ hq)
    have hvp2 : ∀ q ∈ rest, (jobVideoPath q.2 ∈ g ↔ jobVideoPath q.2 ∈ fs) :=
      fun q hq => hvp q (List.mem_cons_of_mem _ hq)
    have hpp2 : ∀ q ∈ rest, contributes ctf cutoff q.2 fs → publicVideoPath q.1 ∈ g :=
      fun q hq => hpp q (List.mem_cons_of_mem _ hq)
    by_cases h1 : job.status = .completed
    case neg =>
      rw [listVideosLoop_cons_skip ctf cutoff jid job rest g (Or.inl h1),
        listVideosLoop_cons_skip ctf cutoff jid job rest fs (Or.inl h1)]
      exact ih fs g hcol2 hvp2 hpp2
    by_cases h2 : skipByFilter ctf job = true
    case pos =>
      rw [listVideosLoop_cons_skip ctf cutoff jid job rest g (Or.inr (Or.inl h2)),
        listVideosLoop_cons_skip ctf cutoff jid job rest fs (Or.inr (Or.inl h2))]
      exact ih fs g hcol2 hvp2 hpp2
    by_cases h3 : job.created_at < cutoff
    case pos =>
      rw [listVideosLoop_cons_skip ctf cutoff jid job rest g (Or.inr (Or.inr (Or.inl h3))),
        listVideosLoop_cons_skip ctf cutoff jid job rest fs (Or.inr (Or.inr (Or.inl h3)))]
      exact ih fs g hcol2 hvp2 hpp2
    by_cases h4 : jobVideoPath job ∈ fs
    case neg =>
      have h4g : jobVideoPath job ∉ g := fun hg =>
        h4 ((hvp (jid, job) (List.mem_cons_self _ _)).mp hg)
      rw [listVideosLoop_cons_skip ctf cutoff jid job rest g (Or.inr (Or.inr (Or.inr h4g))),
        listVideosLoop_cons_skip ctf cutoff jid job rest fs (Or.inr (Or.inr (Or.inr h4)))]
      exact ih fs g hcol2 hvp2 hpp2
    have h4g : jobVideoPath job ∈ g := (hvp (jid, job) (List.mem_cons_self _ _)).mpr h4
    have hppg : publicVideoPath jid ∈ g :=
      hpp (jid, job) (List.mem_cons_self _ _) ⟨h1, by simpa using h2, h3, h4⟩
    rw [listVideosLoop_cons_go ctf cutoff jid job rest g h1 (by simpa using h2) h3 h4g,
      listVideosLoop_cons_go ctf cutoff jid job rest fs h1 (by simpa using h2) h3 h4]
    rw [if_pos hppg]
    have hfs1 : ∀ q ∈ rest,
        (jobVideoPath q.2
            ∈ (if publicVideoPath jid ∈ fs then fs else publicVideoPath jid :: fs))
          ↔ jobVideoPath q.2 ∈ fs := fun q hq =>
      mem_condIns (hcol q (List.mem_cons_of_mem _ hq) (jid, job) (List.mem_cons_self _ _)) _
    have hvp3 : ∀ q ∈ rest,
        (jobVideoPath q.2 ∈ g ↔ jobVideoPath q.2
            ∈ (if publicVideoPath jid ∈ fs then fs else publicVideoPath jid :: fs)) :=
      fun q hq => (hvp2 q hq).trans (hfs1 q hq).symm
    have hpp3 : ∀ q ∈ rest,
        contributes ctf cutoff q.2
            (if publicVideoPath jid ∈ fs then fs else publicVideoPath jid :: fs) →
          publicVideoPath q.1 ∈ g := by
      intro q hq hc
      exact hpp2 q hq ⟨hc.1, hc.2.1, hc.2.2.1, (hfs1 q hq).mp hc.2.2.2⟩
    rw [ih _ g hcol2 hvp3 hpp3]

/-- C9: repeated `GET /status/{id}` and `GET /download/{id}` calls return
identical results and leave the state untouched, and the lazy public-copy
materialization of `GET /videos` is idempotent — a second call copies nothing
and returns the same listing (given that no job's private video path
coincides with a public copy path, which holds in deployment). -/
theorem completed_reads_idempotent (s : Store × List String) (job_id : String)
    (ct_filter : Option String) (cutoff : String) (limit : Nat)
    (hcol : NoCollision s.1) :
    statusCall (statusCall s job_id).2 job_id = statusCall s job_id ∧
    downloadCall (downloadCall s job_id).2 job_id = downloadCall s job_id ∧
    videosCall (videosCall s ct_filter cutoff limit).2 ct_filter cutoff limit
        = videosCall s ct_filter cutoff limit := by
  refine ⟨rfl, rfl, ?_⟩
  obtain ⟨store, fs⟩ := s
  have hvp : ∀ q ∈ store,
      (jobVideoPath q.2 ∈ (listVideosLoop ct_filter cutoff store fs).2
        ↔ jobVideoPath q.2 ∈ fs) := by
    intro q hq
    constructor
    · intro hg
      rcases listVideosLoop_fs_from ct_filter cutoff store fs _ hg with h | ⟨q2, hq2, heq⟩
      · exact h
      · exact absurd heq (hcol q hq q2 hq2)
    · intro hf
      exact listVideosLoop_fs_mono ct_filter cutoff store fs hf
  have hpp : ∀ q ∈ store, contributes ct_filter cutoff q.2 fs →
      publicVideoPath q.1 ∈ (listVideosLoop ct_filter cutoff store fs).2 := by
    intro q hq hc
    exact listVideosLoop_pp_mem ct_filter cutoff store fs q.1 q.2 (by simpa using hq) hc
  have hpass := listVideosLoop_pass2 ct_filter cutoff store fs
    ((listVideosLoop ct_filter cutoff store fs).2) hcol hvp hpp
  simp [videosCall, list_videos, hpass]

/-- Witness for C9: a store with one completed story job whose video exists —
repeated status, download and videos calls are all stable. -/
theorem completed_reads_idempotent_witness :
    NoCollision storeC9 ∧
    (statusCall (statusCall (storeC9, fsC9) "v1").2 "v1" = statusCall (storeC9, fsC9) "v1" ∧
     downloadCall (downloadCall (storeC9, fsC9) "v1").2 "v1"
        = downloadCall (storeC9, fsC9) "v1" ∧
     videosCall (videosCall (storeC9, fsC9) none "2024-01-01T00:00:00" 10).2
          none "2024-01-01T00:00:00" 10
        = videosCall (storeC9, fsC9) none "2024-01-01T00:00:00" 10) :=
  ⟨by unfold NoCollision; decide,
   completed_reads_idempotent (storeC9, fsC9) "v1" none "2024-01-01T00:00:00" 10
     (by unfold NoCollision; decide)⟩

end VideoMaker
